import Mathlib

/-!
Verification development for the ANV-WEB single-page animated greeting
application.  The definitions below are shallow embeddings of the state and
sequencing logic of the repository's core components:

* `src/src/NetflixBackground.tsx` — deterministic poster selection and the
  session-wide poster cache (`rowPosters`, `POSTER_CACHE`);
* `src/src/UnfoldingPaper.tsx` — the four-quadrant paper pose model, the GSAP
  fold/unfold timeline, the open/animating/fully-open state machine and the
  text-reveal gate;
* the bowl interaction controller (`InteractiveBowlSection`) — shuffle
  lifecycle, the `unseenNoteIds` exclusion pool, and `handleClosePaper`.

Numeric values are rationals (`ℚ`); angles are stored as coefficients of π
(the source only ever uses the multiples `-Math.PI` and `0`).  The external
animation engine (GSAP) is modelled as a pure function of the playhead whose
tween start values are captured from the pose current when the timeline first
plays, and whose completion callbacks fire when the playhead reaches an end.
-/

namespace ANV

/-! ## NetflixBackground: deterministic image selector and poster cache

From `src/src/NetflixBackground.tsx`, lines 411–451 (`rowPosters` memo).
The source keys the session-wide `POSTER_CACHE` by the string
`` `${availableImages.length}-row-${rowIndex}-${config.posterCount}` ``;
since the three components are decimal numerals separated by fixed markers,
this string is an injective encoding of the triple
(pool length, row index, poster count), which we use directly as the key. -/

structure Poster where
  id : String
  imageUrl : String
  altText : String
deriving DecidableEq, Repr

structure PosterKey where
  poolLen : Nat
  rowIndex : Nat
  posterCount : Nat
deriving DecidableEq, Repr

/-- Session-wide poster cache (`POSTER_CACHE`), an append-only key-value
store; newest entries are consed at the front. -/
abbrev PosterCache := List (PosterKey × List Poster)

/-- Lookup in the poster cache (`POSTER_CACHE.has` / `POSTER_CACHE.get`). -/
def cacheFind (key : PosterKey) : PosterCache → Option (List Poster)
  | [] => none
  | e :: rest => if e.1 = key then some e.2 else cacheFind key rest

/-- Stable deterministic starting offset for a row:
`(rowIndex * 7) % Math.max(1, availableImages.length)` (line 428). -/
def startOffset (pool : List String) (rowIndex : Nat) : Nat :=
  (rowIndex * 7) % (max 1 pool.length)

/-- One poster cell of the fill loop body (lines 430–439): the image index is
`(startOffset + i) % availableImages.length` and the id, image URL and alt
text are built exactly as in the source. -/
def mkPoster (pool : List String) (rowIndex i : Nat) : Poster :=
  let imageIndex := (startOffset pool rowIndex + i) % pool.length
  { id := "poster-" ++ toString rowIndex ++ "-" ++ toString i ++ "-" ++ toString imageIndex
    imageUrl := pool.getD imageIndex ""
    altText := "Poster " ++ toString (i + 1) ++ " in row " ++ toString (rowIndex + 1) }

/-- The pure deterministic selection rule: the whole row of `totalPosters`
cells produced by the fill loop, with no cache involved. -/
def rowPostersPure (pool : List String) (rowIndex totalPosters : Nat) : List Poster :=
  (List.range totalPosters).map (mkPoster pool rowIndex)

/-- `totalPosters = Math.ceil(config.posterCount * (isDesktop ? 3 : 2.5))`
(lines 422–423), in exact natural-number arithmetic. -/
def totalPosters (isDesktop : Bool) (posterCount : Nat) : Nat :=
  if isDesktop then posterCount * 3 else (posterCount * 5 + 1) / 2

/-- One evaluation of the `rowPosters` body for a single row (lines 412–449):
build the cache key, return the cached row on a hit, otherwise generate the
row with the pure rule and append it to the cache. -/
def rowPostersStep (cache : PosterCache) (pool : List String)
    (rowIndex posterCount : Nat) (isDesktop : Bool) : List Poster × PosterCache :=
  let key : PosterKey := ⟨pool.length, rowIndex, posterCount⟩
  match cacheFind key cache with
  | some ps => (ps, cache)
  | none =>
      let ps := rowPostersPure pool rowIndex (totalPosters isDesktop posterCount)
      (ps, (key, ps) :: cache)

/-- Every entry of the cache whose key records the length of `pool` was
generated by the pure rule on `pool` for the key's row index (for some slot
count).  Holds of the empty cache, hence of every cache arising in a session
that only ever supplies this one pool. -/
def CacheGood (pool : List String) (cache : PosterCache) : Prop :=
  ∀ e ∈ cache, e.1.poolLen = pool.length →
    ∃ n, e.2 = rowPostersPure pool e.1.rowIndex n

theorem cacheFind_mem {key : PosterKey} {ps : List Poster} :
    ∀ {cache : PosterCache}, cacheFind key cache = some ps → (key, ps) ∈ cache := by
  intro cache
  induction cache with
  | nil => intro h; simp [cacheFind] at h
  | cons e rest ih =>
      intro h
      by_cases he : e.1 = key
      · simp [cacheFind, he] at h
        obtain ⟨k, v⟩ := e
        cases he
        cases h
        exact List.mem_cons_self _ _
      · simp [cacheFind, he] at h
        exact List.mem_cons_of_mem _ (ih h)

theorem rowPostersPure_getElem? (pool : List String) (rowIndex n i : Nat)
    (h : i < n) :
    (rowPostersPure pool rowIndex n)[i]? = some (mkPoster pool rowIndex i) := by
  simp [rowPostersPure, List.getElem?_map, List.getElem?_range, h]

/-- C6 (amended): as long as every cache entry recording the current pool's
length was itself produced by the pure rule on that pool — in particular
throughout any session that supplies a single pool, starting from the empty
cache — the row returned through the poster cache agrees slot-by-slot with
the pure deterministic selection rule `mkPoster` for the requested row, and
the property is preserved by the cache update.  (The unamended claim, which
also covers two different pools of equal length in one session, is refuted
separately at a concrete pair of equal-length pools.) -/
theorem rowPosters_cache_single_pool
    (pool : List String) (cache : PosterCache) (rowIndex posterCount : Nat)
    (isDesktop : Bool) (hgood : CacheGood pool cache) :
    (∀ i, i < ((rowPostersStep cache pool rowIndex posterCount isDesktop).1).length →
        ((rowPostersStep cache pool rowIndex posterCount isDesktop).1)[i]? =
          some (mkPoster pool rowIndex i)) ∧
      CacheGood pool (rowPostersStep cache pool rowIndex posterCount isDesktop).2 := by
  rcases hfind : cacheFind ⟨pool.length, rowIndex, posterCount⟩ cache with _ | ps
  · constructor
    · intro i hi
      simp only [rowPostersStep, hfind] at hi ⊢
      exact rowPostersPure_getElem? pool rowIndex _ i (by simpa [rowPostersPure] using hi)
    · intro e he hlen
      simp only [rowPostersStep, hfind] at he
      rcases List.mem_cons.mp he with rfl | hmem
      · exact ⟨totalPosters isDesktop posterCount, rfl⟩
      · exact hgood e hmem hlen
  · have hmem := cacheFind_mem hfind
    obtain ⟨n, hps⟩ := hgood _ hmem rfl
    dsimp only at hps
    constructor
    · intro i hi
      simp only [rowPostersStep, hfind] at hi ⊢
      rw [hps] at hi ⊢
      exact rowPostersPure_getElem? pool rowIndex n i (by simpa [rowPostersPure] using hi)
    · intro e he hlen
      simp only [rowPostersStep, hfind] at he
      exact hgood e he hlen

/-- Witness for `rowPosters_cache_single_pool` at the pool `["A","B","C"]`,
row 0, slot-count 2, mobile layout, on the empty session cache. -/
theorem rowPosters_cache_single_pool_witness :
    ((rowPostersStep [] ["A", "B", "C"] 0 2 false).1)[0]? =
      some (mkPoster ["A", "B", "C"] 0 0) :=
  (rowPosters_cache_single_pool ["A", "B", "C"] [] 0 2 false
    (by simp [CacheGood])).1 0 (by decide)

/-- C6 (counterexample): the cache key records only the pool's length, so a
session that first requests row 0 with the pool `["A","B","C"]` and then
requests the same row with the different, equal-length pool `["X","Y","Z"]`
gets back the row generated from the first pool — not the value of the pure
rule on the current pool, contradicting the claim as stated. -/
theorem posterCache_equal_length_pools_counterexample :
    ((rowPostersStep ((rowPostersStep [] ["A", "B", "C"] 0 2 false).2)
        ["X", "Y", "Z"] 0 2 false).1 ≠
      rowPostersPure ["X", "Y", "Z"] 0 (totalPosters false 2)) ∧
    (rowPostersStep ((rowPostersStep [] ["A", "B", "C"] 0 2 false).2)
        ["X", "Y", "Z"] 0 2 false).1 =
      (rowPostersStep [] ["A", "B", "C"] 0 2 false).1 := by
  decide

/-- C7: for the pool `[A,B,C]` and row 0 with 5 slots (slot-count 2 on the
mobile multiplier 2.5 gives `ceil(2*2.5) = 5` cells), the deterministic
selector produces the wrap-around image sequence `[A,B,C,A,B]`
(start offset `(0*7) % 3 = 0`, image index `slot % 3`), and a repeated call
with the same pool, row and slot count — now served from the cache — returns
the identical row. -/
theorem rowPosters_example_sequence :
    (rowPostersPure ["A", "B", "C"] 0 5).map Poster.imageUrl = ["A", "B", "C", "A", "B"] ∧
    (rowPostersStep [] ["A", "B", "C"] 0 2 false).1 = rowPostersPure ["A", "B", "C"] 0 5 ∧
    (rowPostersStep ((rowPostersStep [] ["A", "B", "C"] 0 2 false).2)
        ["A", "B", "C"] 0 2 false).1 =
      (rowPostersStep [] ["A", "B", "C"] 0 2 false).1 := by
  decide

/-! ## PaperMesh: segment poses and the fold/unfold timeline

From `src/src/UnfoldingPaper.tsx`.  Dimensional constants are lines 14–20;
base segment positions are lines 126–129; the FOLDED pose is the `gsap.set`
block of lines 174–179; the tween targets are lines 131–156.  Rotation
components are stored as coefficients of π (the source only uses the values
`-Math.PI` and `0`); positions are plain scene units. -/

def PAPER_WIDTH : ℚ := 7 / 2

def PAPER_HEIGHT : ℚ := 9 / 2

def HALF_PAPER_WIDTH : ℚ := PAPER_WIDTH / 2

def HALF_PAPER_HEIGHT : ℚ := PAPER_HEIGHT / 2

def QUARTER_PAPER_WIDTH : ℚ := PAPER_WIDTH / 4

def QUARTER_PAPER_HEIGHT : ℚ := PAPER_HEIGHT / 4

structure Vec3 where
  x : ℚ
  y : ℚ
  z : ℚ
deriving DecidableEq, Repr

structure SegmentPose where
  position : Vec3
  rotation : Vec3
deriving DecidableEq, Repr

/-- The five independently posed nodes: the four quadrant meshes and the
right-fold pivot group (`rightFoldGroupRef`). -/
structure PaperPose where
  tlSeg : SegmentPose
  trSeg : SegmentPose
  blSeg : SegmentPose
  brSeg : SegmentPose
  rightFoldGroup : SegmentPose
deriving DecidableEq, Repr

inductive SegId where
  | tlSeg
  | trSeg
  | blSeg
  | brSeg
  | rightFoldGroup
deriving DecidableEq, Repr

inductive Axis where
  | x
  | y
  | z
deriving DecidableEq, Repr

inductive Chan where
  | position
  | rotation
deriving DecidableEq, Repr

/-- A single animatable scalar slot of the pose, e.g. the x-rotation of the
top-left segment. -/
structure FieldRef where
  seg : SegId
  chan : Chan
  ax : Axis
deriving DecidableEq, Repr

def Vec3.getAxis (v : Vec3) : Axis → ℚ
  | .x => v.x
  | .y => v.y
  | .z => v.z

def Vec3.setAxis (v : Vec3) : Axis → ℚ → Vec3
  | .x, q => { v with x := q }
  | .y, q => { v with y := q }
  | .z, q => { v with z := q }

def SegmentPose.getChan (s : SegmentPose) : Chan → Vec3
  | .position => s.position
  | .rotation => s.rotation

def SegmentPose.setChan (s : SegmentPose) : Chan → Vec3 → SegmentPose
  | .position, v => { s with position := v }
  | .rotation, v => { s with rotation := v }

def PaperPose.getSeg (p : PaperPose) : SegId → SegmentPose
  | .tlSeg => p.tlSeg
  | .trSeg => p.trSeg
  | .blSeg => p.blSeg
  | .brSeg => p.brSeg
  | .rightFoldGroup => p.rightFoldGroup

def PaperPose.setSeg (p : PaperPose) : SegId → SegmentPose → PaperPose
  | .tlSeg, s => { p with tlSeg := s }
  | .trSeg, s => { p with trSeg := s }
  | .blSeg, s => { p with blSeg := s }
  | .brSeg, s => { p with brSeg := s }
  | .rightFoldGroup, s => { p with rightFoldGroup := s }

def getField (p : PaperPose) (f : FieldRef) : ℚ :=
  ((p.getSeg f.seg).getChan f.chan).getAxis f.ax

def setField (p : PaperPose) (f : FieldRef) (q : ℚ) : PaperPose :=
  p.setSeg f.seg
    ((p.getSeg f.seg).setChan f.chan (((p.getSeg f.seg).getChan f.chan).setAxis f.ax q))

/-- FOLDED pose: base positions of lines 126–129 overwritten by the
`gsap.set` calls of lines 174–179 — top segments rotated `-π` about x and
dropped onto the bottom segments (`blSeg.position.y + QUARTER_PAPER_HEIGHT`,
which equals 0, keeping their z offsets), right-fold group rotated `-π`
about y and offset to `(-HALF_PAPER_WIDTH, 0, 0.005)`. -/
def foldedPose : PaperPose where
  tlSeg := { position := ⟨-QUARTER_PAPER_WIDTH, -(HALF_PAPER_HEIGHT / 2) + QUARTER_PAPER_HEIGHT, 1 / 50⟩
             rotation := ⟨-1, 0, 0⟩ }
  trSeg := { position := ⟨QUARTER_PAPER_WIDTH, -(HALF_PAPER_HEIGHT / 2) + QUARTER_PAPER_HEIGHT, 1 / 100⟩
             rotation := ⟨-1, 0, 0⟩ }
  blSeg := { position := ⟨-QUARTER_PAPER_WIDTH, -(HALF_PAPER_HEIGHT / 2), 0⟩
             rotation := ⟨0, 0, 0⟩ }
  brSeg := { position := ⟨QUARTER_PAPER_WIDTH, -(HALF_PAPER_HEIGHT / 2), 0⟩
             rotation := ⟨0, 0, 0⟩ }
  rightFoldGroup := { position := ⟨-HALF_PAPER_WIDTH, 0, 1 / 200⟩
                      rotation := ⟨0, -1, 0⟩ }

/-- UNFOLDED pose: all rotations zero, top segments back at
`y = HALF_PAPER_HEIGHT / 2`, right-fold group at the origin — the pose the
timeline's tween end values describe (lines 131–156, cf. the snap block of
lines 164–169). -/
def unfoldedPose : PaperPose where
  tlSeg := { position := ⟨-QUARTER_PAPER_WIDTH, HALF_PAPER_HEIGHT / 2, 1 / 50⟩
             rotation := ⟨0, 0, 0⟩ }
  trSeg := { position := ⟨QUARTER_PAPER_WIDTH, HALF_PAPER_HEIGHT / 2, 1 / 100⟩
             rotation := ⟨0, 0, 0⟩ }
  blSeg := { position := ⟨-QUARTER_PAPER_WIDTH, -(HALF_PAPER_HEIGHT / 2), 0⟩
             rotation := ⟨0, 0, 0⟩ }
  brSeg := { position := ⟨QUARTER_PAPER_WIDTH, -(HALF_PAPER_HEIGHT / 2), 0⟩
             rotation := ⟨0, 0, 0⟩ }
  rightFoldGroup := { position := ⟨0, 0, 0⟩
                      rotation := ⟨0, 0, 0⟩ }

/-- The timeline's tween targets, in source order (lines 131–156): stage 1
rotates the top segments' x-rotation to 0 and lifts their y-positions to
`HALF_PAPER_HEIGHT / 2`; stage 2 rotates the right-fold group's y-rotation to
0 and translates its x and z back to 0.  Each field is targeted by exactly
one tween. -/
def tweenTargets : List (FieldRef × ℚ) :=
  [ (⟨.tlSeg, .rotation, .x⟩, 0),
    (⟨.trSeg, .rotation, .x⟩, 0),
    (⟨.tlSeg, .position, .y⟩, HALF_PAPER_HEIGHT / 2),
    (⟨.trSeg, .position, .y⟩, HALF_PAPER_HEIGHT / 2),
    (⟨.rightFoldGroup, .rotation, .y⟩, 0),
    (⟨.rightFoldGroup, .position, .x⟩, 0),
    (⟨.rightFoldGroup, .position, .z⟩, 0) ]

/-- Pose of the scene at an arbitrary point of timeline playback.  The GSAP
timeline is a pure function of the playhead: each `.to` tween interpolates
its targeted field from the start value captured when the timeline first
played (the pose `start`) to its end value, and every untargeted field is
held constant.  `prog f` is the eased local progress of the tween targeting
`f` (0 at the timeline's start, 1 at its end, arbitrary in between);
quantifying over `prog` covers every playhead position in both directions. -/
def poseAt (start : PaperPose) (prog : FieldRef → ℚ) : PaperPose :=
  tweenTargets.foldl
    (fun p t => setField p t.1 (getField start t.1 + prog t.1 * (t.2 - getField start t.1)))
    start

/-- C4: starting from the FOLDED pose (top segments rotated -π about x and
overlaid on the bottom segments, right-pivot group rotated -π about y and
offset by -HALF_PAPER_WIDTH), playing the fold timeline forward to
completion yields exactly the UNFOLDED pose, and then playing in reverse to
completion (playhead back at 0) returns every segment's rotation and
position exactly — hence within any tolerance — to the original FOLDED
pose. -/
theorem fold_unfold_round_trip :
    poseAt foldedPose (fun _ => 1) = unfoldedPose ∧
    poseAt foldedPose (fun _ => 0) = foldedPose := by
  constructor <;>
    simp [poseAt, tweenTargets, setField, getField, PaperPose.setSeg, PaperPose.getSeg,
      SegmentPose.setChan, SegmentPose.getChan, Vec3.setAxis, Vec3.getAxis,
      foldedPose, unfoldedPose, PAPER_WIDTH, PAPER_HEIGHT, HALF_PAPER_WIDTH,
      HALF_PAPER_HEIGHT, QUARTER_PAPER_WIDTH, QUARTER_PAPER_HEIGHT]

/-- C8: at every point of timeline progress, in both directions and from any
start pose, the rotations of the bottom-left and bottom-right segments are
untouched, and so is every rotation component other than the top segments'
x-rotations and the right-fold group's y-rotation: the timeline's tweens
target only those rotations (plus position offsets).  The bottom segments'
positions are likewise never animated. -/
theorem bottom_segments_never_rotate (start : PaperPose) (prog : FieldRef → ℚ) :
    (poseAt start prog).blSeg.rotation = start.blSeg.rotation ∧
    (poseAt start prog).brSeg.rotation = start.brSeg.rotation ∧
    (poseAt start prog).tlSeg.rotation.y = start.tlSeg.rotation.y ∧
    (poseAt start prog).tlSeg.rotation.z = start.tlSeg.rotation.z ∧
    (poseAt start prog).trSeg.rotation.y = start.trSeg.rotation.y ∧
    (poseAt start prog).trSeg.rotation.z = start.trSeg.rotation.z ∧
    (poseAt start prog).rightFoldGroup.rotation.x = start.rightFoldGroup.rotation.x ∧
    (poseAt start prog).rightFoldGroup.rotation.z = start.rightFoldGroup.rotation.z ∧
    (poseAt start prog).blSeg.position = start.blSeg.position ∧
    (poseAt start prog).brSeg.position = start.brSeg.position := by
  simp [poseAt, tweenTargets, setField, getField, PaperPose.setSeg, PaperPose.getSeg,
        SegmentPose.setChan, SegmentPose.getChan, Vec3.setAxis, Vec3.getAxis]

/-! ## PaperMesh: the GSAP setup effect and the timeline-creation guard

From `src/src/UnfoldingPaper.tsx`, lines 92–183. -/

structure MeshSetupInput where
  segmentsReady : Bool
  refsReady : Bool
  isUnfolding : Bool
  isParentAnimating : Bool
deriving DecidableEq, Repr

/-- The ref cell `tl` (line 77) holding the timeline, if created, plus an
observer counting creations; created timelines are numbered by the running
creation count, so timeline identity is observable. -/
structure MeshSetupState where
  tl : Option Nat
  createdCount : Nat
deriving DecidableEq, Repr

def initialMeshSetupState : MeshSetupState := { tl := none, createdCount := 0 }

/-- One run of the GSAP setup effect (lines 92–183): early-return when the
segments or the group refs are not ready (lines 93–96); otherwise create a
timeline only under the `if (!tl.current)` guard (line 100).  The
`isUnfolding` / `isParentAnimating` props re-run the effect (line 183) and
select the initial seek position of a freshly created timeline, but play no
part in the creation guard. -/
def setupEffect (inp : MeshSetupInput) (s : MeshSetupState) : MeshSetupState :=
  if inp.segmentsReady ∧ inp.refsReady then
    match s.tl with
    | some _ => s
    | none => { tl := some s.createdCount, createdCount := s.createdCount + 1 }
  else s

def runSetup (inps : List MeshSetupInput) (s : MeshSetupState) : MeshSetupState :=
  inps.foldl (fun st inp => setupEffect inp st) s

theorem setupEffect_preserves_tl (inp : MeshSetupInput) (s : MeshSetupState) (t : Nat)
    (h : s.tl = some t) : (setupEffect inp s).tl = some t := by
  simp only [setupEffect]
  split <;> simp [h]

theorem runSetup_preserves_tl (inps : List MeshSetupInput) (s : MeshSetupState) (t : Nat)
    (h : s.tl = some t) : (runSetup inps s).tl = some t := by
  induction inps generalizing s with
  | nil => exact h
  | cons i rest ih => exact ih _ (setupEffect_preserves_tl i s t h)

/-- Reachability invariant from a fresh mount: either no timeline was ever
created, or exactly one was (numbered 0) and it is still the one held. -/
def SetupInv (s : MeshSetupState) : Prop :=
  (s.tl = none ∧ s.createdCount = 0) ∨ (s.tl = some 0 ∧ s.createdCount = 1)

theorem setupEffect_inv (inp : MeshSetupInput) (s : MeshSetupState) (h : SetupInv s) :
    SetupInv (setupEffect inp s) := by
  rcases h with ⟨h1, h2⟩ | ⟨h1, h2⟩ <;>
    · simp only [SetupInv, setupEffect]
      split <;> simp [h1, h2]

theorem runSetup_inv (inps : List MeshSetupInput) (s : MeshSetupState) (h : SetupInv s) :
    SetupInv (runSetup inps s) := by
  induction inps generalizing s with
  | nil => exact h
  | cons i rest ih => exact ih _ (setupEffect_inv i s h)

/-- C5: for every mounted PaperMesh instance, at most one GSAP timeline is
ever created across any sequence of re-runs of the setup effect — whatever
the readiness flags and the `isUnfolding` / `isParentAnimating` props on
each run — and once a timeline exists, every further run leaves that very
timeline in place (the `if (!tl.current)` guard never recreates it). -/
theorem timeline_created_at_most_once (inps more : List MeshSetupInput) :
    (runSetup inps initialMeshSetupState).createdCount ≤ 1 ∧
    (∀ t, (runSetup inps initialMeshSetupState).tl = some t →
      (runSetup (inps ++ more) initialMeshSetupState).tl = some t) := by
  constructor
  · rcases runSetup_inv inps initialMeshSetupState (Or.inl ⟨rfl, rfl⟩) with ⟨_, h⟩ | ⟨_, h⟩ <;>
      simp [h]
  · intro t ht
    have hsplit : runSetup (inps ++ more) initialMeshSetupState
        = runSetup more (runSetup inps initialMeshSetupState) := by
      simp [runSetup, List.foldl_append]
    rw [hsplit]
    exact runSetup_preserves_tl more _ t ht

/-- Witness for `timeline_created_at_most_once`: a ready run creates
timeline 0; a later run with flipped props keeps it. -/
theorem timeline_created_at_most_once_witness :
    (runSetup [⟨true, true, true, false⟩] initialMeshSetupState).createdCount ≤ 1 ∧
    (runSetup ([⟨true, true, true, false⟩] ++ [⟨true, true, false, true⟩])
        initialMeshSetupState).tl = some 0 :=
  ⟨(timeline_created_at_most_once [⟨true, true, true, false⟩] [⟨true, true, false, true⟩]).1,
    (timeline_created_at_most_once [⟨true, true, true, false⟩]
      [⟨true, true, false, true⟩]).2 0 (by decide)⟩

/-! ## PaperMesh: the text-reveal gate

From `src/src/UnfoldingPaper.tsx`, lines 212 and 225–297. -/

/-- `const characters = props.message.split('')` (line 212). -/
def characters (message : String) : List Char := message.toList

/-- The gate of the glyph animation effect (line 231):
`props.isTextVisible && populatedRefsCount === characters.length &&
characters.length > 0`; only when it is true does the effect start the
per-character tweens. -/
def textAnimGate (isTextVisible : Bool) (populatedRefsCount : Nat) (message : String) : Bool :=
  isTextVisible && populatedRefsCount == (characters message).length &&
    decide (0 < (characters message).length)

/-- C10: for the empty message the text-reveal gate is false whatever the
visibility flag and the registered-ref count, so no glyph animation is ever
started; conversely, whenever the gate is true the message is non-empty,
every expected per-character render target has registered
(`populatedRefsCount` equals the character count), and the text is
visible. -/
theorem empty_message_never_animates :
    (∀ v p, textAnimGate v p "" = false) ∧
    (∀ v p m, textAnimGate v p m = true →
      m ≠ "" ∧ p = (characters m).length ∧ v = true) := by
  constructor
  · intro v p
    simp [textAnimGate, characters]
  · intro v p m h
    simp only [textAnimGate, Bool.and_eq_true, beq_iff_eq, decide_eq_true_eq] at h
    obtain ⟨⟨hv, hp⟩, hlen⟩ := h
    refine ⟨?_, hp, hv⟩
    intro hm
    subst hm
    simp [characters] at hlen

/-- Witness for `empty_message_never_animates` at the visible, fully
registered two-character message. -/
theorem empty_message_never_animates_witness :
    textAnimGate true 2 "hi" = true ∧
    ("hi" ≠ "" ∧ 2 = (characters "hi").length ∧ true = true) :=
  ⟨by decide, empty_message_never_animates.2 true 2 "hi" (by decide)⟩

/-! ## UnfoldingPaper ⇄ PaperMesh: the open/close sequencer

A transition system combining `UnfoldingPaper`'s state machine
(`src/src/UnfoldingPaper.tsx`, lines 346–387: the `isOpen` effect, the
null-render guard and `handleAnimationComplete`) with its `PaperMesh`'s
timeline (lines 100–122 completion callbacks, lines 185–203 play/reverse
control).  The timeline is abstracted to a playhead in ticks with an
active flag and a direction; callbacks read the component's current
values at fire time (the semantics most favourable to the claim). -/

/-- A completion reported through `handleAnimationComplete`:
`openedDone` is the transition to FULLY_OPEN taken when `isOpen` still
holds, `closedDone` the terminal transition to CLOSED taken when it does
not (after which the null-render guard unmounts the scene). -/
inductive Completion where
  | openedDone
  | closedDone
deriving DecidableEq, Repr

structure SeqState where
  isOpen : Bool
  isAnimating : Bool
  isFullyOpen : Bool
  progress : Nat
  active : Bool
  reversed : Bool
deriving DecidableEq, Repr

/-- Forward duration of the fold timeline, in abstract ticks. -/
def tlTicks : Nat := 3

/-- `isUnfolding = isOpen || isFullyOpen`: the target state passed to
`PaperMesh` (line 434). -/
def SeqState.isUnfolding (s : SeqState) : Bool := s.isOpen || s.isFullyOpen

/-- The animation-control effect (lines 185–203), which re-runs exactly when
its sole dependency `isUnfolding` changes: when the target is OPEN, play
forward if the playhead is short of the end and the timeline is not actively
running; when the target is CLOSED, reverse (at 1.5× speed) if the playhead
is past 0 and the timeline is not actively running. -/
def controlEffect (s : SeqState) : SeqState :=
  if s.isUnfolding then
    if s.progress < tlTicks ∧ s.active = false then
      { s with active := true, reversed := false }
    else s
  else
    if 0 < s.progress ∧ s.active = false then
      { s with active := true, reversed := true }
    else s

/-- Run the control effect on the post-update state exactly when the update
changed `isUnfolding` (the effect's dependency array, line 203). -/
def applyControl (old new : SeqState) : SeqState :=
  if new.isUnfolding = old.isUnfolding then new else controlEffect new

/-- `handleAnimationComplete` (lines 377–387): re-checks `isOpen` at call
time and either settles into FULLY_OPEN or finishes the close. -/
def handleAnimationComplete (s : SeqState) : SeqState × List Completion :=
  if s.isOpen then
    ({ s with isAnimating := false, isFullyOpen := true }, [.openedDone])
  else
    ({ s with isAnimating := false }, [.closedDone])

/-- An open request: the `isOpen` effect for `isOpen = true` (lines 352–354)
followed by the control effect if `isUnfolding` changed. -/
def openRequest (s : SeqState) : SeqState :=
  applyControl s { s with isOpen := true, isAnimating := true, isFullyOpen := false }

/-- A close request: the `isOpen` effect for `isOpen = false`
(lines 355–364) — while fully open or animating it re-enters the animating
state — followed by the control effect if `isUnfolding` changed. -/
def closeRequest (s : SeqState) : SeqState :=
  applyControl s
    (if s.isFullyOpen ∨ s.isAnimating then
      { s with isOpen := false, isFullyOpen := false, isAnimating := true }
    else
      { s with isOpen := false, isAnimating := false })

/-- One frame of timeline playback.  An active forward playhead advances one
tick and on reaching the end fires `onComplete` (lines 105–111), which calls
`handleAnimationComplete` only under the fire-time guard
`isUnfolding && isParentAnimating`; an active reverse playhead retreats one
tick and on reaching 0 fires `onReverseComplete` (lines 112–118) under the
fire-time guard `!isUnfolding && isParentAnimating`. -/
def frameTick (s : SeqState) : SeqState × List Completion :=
  if s.active = false then (s, [])
  else if s.reversed = false then
    if tlTicks ≤ s.progress + 1 then
      let s1 := { s with progress := tlTicks, active := false }
      if s1.isUnfolding = true ∧ s1.isAnimating = true then handleAnimationComplete s1
      else (s1, [])
    else ({ s with progress := s.progress + 1 }, [])
  else
    if s.progress - 1 = 0 then
      let s1 := { s with progress := 0, active := false }
      if s1.isUnfolding = false ∧ s1.isAnimating = true then handleAnimationComplete s1
      else (s1, [])
    else ({ s with progress := s.progress - 1 }, [])

inductive Ev where
  | openReq
  | closeReq
  | frame
deriving DecidableEq, Repr

def stepEv (s : SeqState) : Ev → SeqState × List Completion
  | .openReq => (openRequest s, [])
  | .closeReq => (closeRequest s, [])
  | .frame => frameTick s

def runEvents : SeqState → List Ev → SeqState × List Completion
  | s, [] => (s, [])
  | s, e :: es =>
      let r := stepEv s e
      let rest := runEvents r.1 es
      (rest.1, r.2 ++ rest.2)

/-- The null-render guard (line 367): the component renders nothing iff it
is in CLOSED, i.e. not open and not animating. -/
def rendersNull (s : SeqState) : Bool := !s.isOpen && !s.isAnimating

/-- CLOSED, as mounted fresh before any request. -/
def closedInit : SeqState :=
  { isOpen := false, isAnimating := false, isFullyOpen := false,
    progress := 0, active := false, reversed := false }

/-- C1 (code bug, evaluated at the failing interleaving): an open request,
one animation frame, then a close request before the forward animation
completes, then frames without bound.  The fire-time guard does suppress the
"opened" completion — that half of the claim holds — but because the close
request finds the timeline still actively playing forward, the control
effect's `!isActive()` condition skips the reverse and nothing ever retries
it: the forward animation completes silently, no completion at all is
reported, no terminal transition to CLOSED ever occurs, and the machine is
stuck ANIMATING (`isOpen = false`, `isAnimating = true`, playhead at the
end) with the null-render guard never satisfied — further frames change
nothing.  The claim's "exactly one terminal transition, to CLOSED" fails. -/
theorem rapid_close_during_open_eval :
    (runEvents closedInit [.openReq, .frame, .closeReq, .frame, .frame, .frame, .frame]).2
        = [] ∧
    (runEvents closedInit [.openReq, .frame, .closeReq, .frame, .frame, .frame, .frame]).1
        = { isOpen := false, isAnimating := true, isFullyOpen := false,
            progress := tlTicks, active := false, reversed := false } ∧
    rendersNull
        (runEvents closedInit [.openReq, .frame, .closeReq, .frame, .frame, .frame, .frame]).1
        = false ∧
    (runEvents closedInit
        [.openReq, .frame, .closeReq, .frame, .frame, .frame, .frame, .frame, .frame]).1
      = (runEvents closedInit [.openReq, .frame, .closeReq, .frame, .frame, .frame, .frame]).1 := by
  decide

/-! ## InteractiveBowlSection: the bowl interaction controller

From `src/unnamed/part_003` (the `InteractiveBowlSection` component driving
`UnfoldingPaper`): constants lines 70–81, bit configs lines 106–117,
messages lines 83–94, responsive initial layout lines 162–188, state
lines 190–197, `handleShuffle` lines 213–302, `handleClosePaper`
lines 318–324, `isButtonDisabled` line 326. -/

def NUM_PAPER_BITS : Nat := 10

def ANIMATION_DURATION_MS : Nat := 800

def DESKTOP_BOWL_HEIGHT_PX : ℚ := 208

def MOBILE_BOWL_HEIGHT_PX : ℚ := 160

def BOWL_Y_OFFSET_FROM_CENTER : ℚ := 80

def DESKTOP_CIRCLE_RADIUS : ℚ := 200

def MOBILE_CIRCLE_RADIUS : ℚ := 140

def CIRCLE_Y_OFFSET_FACTOR : ℚ := 6 / 5

def DESKTOP_INITIAL_PAPER_BIT_SCALE : ℚ := 13 / 20

def MOBILE_INITIAL_PAPER_BIT_SCALE : ℚ := 11 / 20

def heartfeltMessages : List String :=
  [ "You're someone's reason to smile.",
    "Believe in the magic within you.",
    "Every day is a fresh start.",
    "You are stronger than you think.",
    "Kindness changes everything.",
    "Dream big, sparkle more, shine bright.",
    "You are loved more than you know.",
    "Today is a gift, that's why it's called the present.",
    "Your potential is endless.",
    "Keep shining, the world needs your light." ]

structure PaperBitConfig where
  id : Nat
  text : String
  messageIndex : Nat
  x : ℚ
  yBaseOffset : ℚ
  rotate : ℚ
  zIndex : Nat
deriving DecidableEq, Repr

def initialPaperBitConfigs : List PaperBitConfig :=
  [ ⟨0, "Love Note 1", 0, -10, 15, 5, 6⟩,
    ⟨1, "Love Note 2", 1, 10, 18, -3, 7⟩,
    ⟨2, "Love Note 3", 2, -20, 12, 15, 8⟩,
    ⟨3, "Love Note 4", 3, 25, 20, -10, 9⟩,
    ⟨4, "Love Note 5", 4, -5, 22, 2, 10⟩,
    ⟨5, "Love Note 6", 5, 15, 10, -8, 11⟩,
    ⟨6, "Love Note 7", 6, 5, 25, 12, 12⟩,
    ⟨7, "Love Note 8", 7, 38, 2, 10, 13⟩,
    ⟨8, "Love Note 9", 8, 0, 0, -6, 14⟩,
    ⟨9, "Love Note 10", 9, -35, -5, 7, 15⟩ ]

structure PaperBitState where
  id : Nat
  message : String
  text : String
  x : ℚ
  y : ℚ
  rotate : ℚ
  scale : ℚ
  opacity : ℚ
  zIndex : Nat
  isChosenForOpening : Bool
  transitionDurationMs : Nat
deriving DecidableEq, Repr

def currentBowlHeightPx (isSmallScreen : Bool) : ℚ :=
  if isSmallScreen then MOBILE_BOWL_HEIGHT_PX else DESKTOP_BOWL_HEIGHT_PX

def currentCircleRadius (isSmallScreen : Bool) : ℚ :=
  if isSmallScreen then MOBILE_CIRCLE_RADIUS else DESKTOP_CIRCLE_RADIUS

def currentInitialPaperBitScale (isSmallScreen : Bool) : ℚ :=
  if isSmallScreen then MOBILE_INITIAL_PAPER_BIT_SCALE else DESKTOP_INITIAL_PAPER_BIT_SCALE

def getCurrentPaperPileCenterInBowlY (isSmallScreen : Bool) (bowlHeight : ℚ) : ℚ :=
  BOWL_Y_OFFSET_FROM_CENTER - bowlHeight / 2 + (if isSmallScreen then 55 else 70)

/-- `getInitialPaperBitsStateResponsive` (lines 170–188): the idle pile
layout of the ten paper bits. -/
def getInitialPaperBitsStateResponsive (isSmallScreen : Bool) : List PaperBitState :=
  let scale := currentInitialPaperBitScale isSmallScreen
  let pileCenterY :=
    getCurrentPaperPileCenterInBowlY isSmallScreen (currentBowlHeightPx isSmallScreen)
  let xOffsetScaleFactor : ℚ := if isSmallScreen then 3 / 4 else 1
  let yBaseOffsetScaleFactor : ℚ := if isSmallScreen then 3 / 4 else 1
  initialPaperBitConfigs.map fun config =>
    { id := config.id
      message := heartfeltMessages.getD (config.messageIndex % heartfeltMessages.length) ""
      text := config.text
      x := config.x * xOffsetScaleFactor
      y := pileCenterY + config.yBaseOffset * yBaseOffsetScaleFactor
      rotate := config.rotate
      scale := scale
      opacity := 1
      zIndex := config.zIndex
      isChosenForOpening := false
      transitionDurationMs := ANIMATION_DURATION_MS }

inductive AppStatus where
  | initial
  | shuffling
  | selected
  | opened
deriving DecidableEq, Repr

/-- Driver state of `InteractiveBowlSection` (lines 190–197): `UnfoldingPaper`
is mounted iff `paperToDisplay` is non-null (line 402);
`shuffleIntervalActive` models the interval handle `shuffleIntervalRef`, and
`shuffleTimeoutPending` the outer `setTimeout` chain scheduled by a
shuffle. -/
structure BowlState where
  appStatus : AppStatus
  paperToDisplay : Option PaperBitState
  isPaperOpen : Bool
  unseenNoteIds : List Nat
  shuffleIntervalActive : Bool
  shuffleTimeoutPending : Bool
  paperBits : List PaperBitState
deriving DecidableEq, Repr

/-- Whether `UnfoldingPaper` is mounted:
`{paperToDisplay && <UnfoldingPaper …/>}` (lines 402–409). -/
def paperMounted (s : BowlState) : Bool := s.paperToDisplay.isSome

/-- `isButtonDisabled = appStatus === 'shuffling'` (line 326). -/
def isButtonDisabled (s : BowlState) : Bool := s.appStatus == .shuffling

/-- `handleClosePaper` (lines 318–324): close the paper, reset the app
status and the bit layout, and clear `paperToDisplay` — all in one
synchronous, batched update, so the very next render drops
`UnfoldingPaper` from the tree. -/
def handleClosePaper (isSmallScreen : Bool) (s : BowlState) : BowlState :=
  { s with
    isPaperOpen := false
    appStatus := .initial
    paperToDisplay := none
    paperBits := getInitialPaperBitsStateResponsive isSmallScreen }

/-- Abstract oracles for the external math library: `Math.cos` / `Math.sin`
(arguments given as coefficients of π) and the `Math.random()` stream,
indexed by call order.  The scattered circle layout is irrational and plays
no role in the claims, but carrying it keeps `handleShuffle`'s guarded early
return an identity on the full state rather than on a projection. -/
structure ShuffleOracle where
  cosPi : ℚ → ℚ
  sinPi : ℚ → ℚ
  rand : Nat → ℚ

/-- The `initialPaperBitConfigs[0]` fallback of
`initialPaperBitConfigs.find(b => b.id === bit.id) || initialPaperBitConfigs[0]`
(line 223). -/
def fallbackBitConfig : PaperBitConfig := ⟨0, "Love Note 1", 0, -10, 15, 5, 6⟩

/-- The synchronous part of `handleShuffle` (lines 213–237): the entry
guard returns untouched state while shuffling or selected; otherwise set the
status to shuffling, clear `paperToDisplay`, clear any pending shuffle
interval, scatter the bits onto the circle
(`angle = (index / NUM_PAPER_BITS) * 2π + π / NUM_PAPER_BITS`, random tilt),
and schedule the hold/settle timeout chain. -/
def handleShuffle (o : ShuffleOracle) (isSmallScreen : Bool) (s : BowlState) : BowlState :=
  if s.appStatus = .shuffling ∨ s.appStatus = .selected then s
  else
    let currentCircleRadiusQ := currentCircleRadius isSmallScreen
    let currentCircleCenterY := -(currentCircleRadiusQ * CIRCLE_Y_OFFSET_FACTOR)
    { s with
      appStatus := .shuffling
      paperToDisplay := none
      shuffleIntervalActive := false
      shuffleTimeoutPending := true
      paperBits := s.paperBits.enum.map fun ie =>
        let index : Nat := ie.1
        let bit := ie.2
        let angleCoeff : ℚ :=
          (index : ℚ) / (NUM_PAPER_BITS : ℚ) * 2 + 1 / (NUM_PAPER_BITS : ℚ)
        let currentBitConfig :=
          (initialPaperBitConfigs.find? (fun b => b.id == bit.id)).getD fallbackBitConfig
        { bit with
          x := currentCircleRadiusQ * o.cosPi angleCoeff
          y := currentCircleCenterY + currentCircleRadiusQ * o.sinPi angleCoeff
          rotate := (o.rand index - 1 / 2) * 15
          scale := 1
          opacity := 1
          zIndex := 20 + currentBitConfig.id
          isChosenForOpening := false
          transitionDurationMs := ANIMATION_DURATION_MS } }

/-- The full pool of note ids, `initialPaperBitConfigs.map(config => config.id)`
— both the initial value of `unseenNoteIds` (line 194) and the reset value
(line 262). -/
def noteIds : List Nat := initialPaperBitConfigs.map (·.id)

/-- The `unseenNoteIds` portion of the shuffle-settle callback (lines
260–269): reset the pool to all note ids only if it is exhausted, pick the
id at a random in-range index (`Math.floor(Math.random() * len)`, modelled
by `rand % length`), and remove exactly the picked id
(`filter(id => id !== selected)`). -/
def selectStep (pool : List Nat) (rand : Nat) : Nat × List Nat :=
  let idsToPickFrom := if pool.isEmpty then noteIds else pool
  let selectedNoteId := idsToPickFrom.getD (rand % idsToPickFrom.length) 0
  (selectedNoteId, idsToPickFrom.filter (fun id => id != selectedNoteId))

/-- Iterate completed shuffles: returns the list of selected ids, in order,
and the final exclusion pool. -/
def runShuffles : List Nat → List Nat → List Nat × List Nat
  | [], pool => ([], pool)
  | r :: rs, pool =>
      ((selectStep pool r).1 :: (runShuffles rs (selectStep pool r).2).1,
        (runShuffles rs (selectStep pool r).2).2)

/-- A state in which the paper is FULLY_OPEN: a note is on display (so
`UnfoldingPaper` is mounted), `isPaperOpen` holds and the app status is
`opened`. -/
def fullyOpenBowl : BowlState :=
  { appStatus := .opened
    paperToDisplay := (getInitialPaperBitsStateResponsive false)[4]?
    isPaperOpen := true
    unseenNoteIds := [0, 2, 7]
    shuffleIntervalActive := false
    shuffleTimeoutPending := false
    paperBits := getInitialPaperBitsStateResponsive false }

/-- C2 (code bug, evaluated at the failing input): with the paper FULLY_OPEN
(status `opened`, `isPaperOpen` true, a note on display), a close request —
`onClose`, i.e. `handleClosePaper` — clears `paperToDisplay` in the same
synchronous batched update in which it sets `isPaperOpen` to false, so the
very next render finds `paperToDisplay && <UnfoldingPaper …>` null and
unmounts the component: the system jumps straight from FULLY_OPEN to
unmounted, never rendering an ANIMATING close frame, and the closing
animation cannot play.  The claim's "never jumps straight from FULLY_OPEN or
ANIMATING to CLOSED/unmounted" fails at every close request. -/
theorem close_unmounts_immediately_eval :
    paperMounted fullyOpenBowl = true ∧
    fullyOpenBowl.appStatus = .opened ∧
    fullyOpenBowl.isPaperOpen = true ∧
    paperMounted (handleClosePaper false fullyOpenBowl) = false ∧
    (handleClosePaper false fullyOpenBowl).appStatus = .initial ∧
    (handleClosePaper false fullyOpenBowl).isPaperOpen = false := by
  refine ⟨?_, rfl, rfl, rfl, rfl, rfl⟩
  rfl

/-- Constant trigonometry/randomness oracles used to evaluate the shuffle
handler at concrete states. -/
def constOracle : ShuffleOracle := ⟨fun _ => 0, fun _ => 0, fun _ => 0⟩

/-- A state in the `selected` status with a pending settle timeout. -/
def selectedBowl : BowlState :=
  { appStatus := .selected
    paperToDisplay := none
    isPaperOpen := false
    unseenNoteIds := [1, 3, 8]
    shuffleIntervalActive := false
    shuffleTimeoutPending := true
    paperBits := getInitialPaperBitsStateResponsive false }

/-- C9: whenever the app status is `shuffling` or `selected`, `handleShuffle`
returns before making any state change — the whole driver state, including
`paperBits`, `unseenNoteIds`, `appStatus`, `paperToDisplay` and the pending
interval/timeout handles, is left untouched — so a shuffle cycle can begin
only from the `initial` or `opened` status, even though the button itself is
disabled exactly while `shuffling`. -/
theorem handleShuffle_guard_noop (o : ShuffleOracle) (isSmallScreen : Bool)
    (s : BowlState) (h : s.appStatus = .shuffling ∨ s.appStatus = .selected) :
    handleShuffle o isSmallScreen s = s ∧
    (isButtonDisabled s = true ↔ s.appStatus = .shuffling) := by
  constructor
  · unfold handleShuffle
    rw [if_pos h]
  · simp [isButtonDisabled]

/-- Witness for `handleShuffle_guard_noop` at a concrete `selected` state. -/
theorem handleShuffle_guard_noop_witness :
    handleShuffle constOracle false selectedBowl = selectedBowl ∧
    (isButtonDisabled selectedBowl = true ↔ selectedBowl.appStatus = .shuffling) :=
  handleShuffle_guard_noop constOracle false selectedBowl (Or.inr rfl)

theorem selectStep_eq (pool : List Nat) (r : Nat) (h : pool ≠ []) :
    selectStep pool r =
      (pool.getD (r % pool.length) 0,
        pool.filter (fun id => id != pool.getD (r % pool.length) 0)) := by
  simp [selectStep, h]

theorem getD_mem_of_lt {l : List Nat} {n : Nat} (h : n < l.length) (d : Nat) :
    l.getD n d ∈ l := by
  rw [List.getD_eq_getElem?_getD, List.getElem?_eq_getElem h]
  exact List.getElem_mem h

/-- Fairness invariant of the exclusion pool: starting from a duplicate-free
pool and running at most `pool.length` completed shuffles, the selected ids
are pairwise distinct, all drawn from the pool (each step picks from the
current pool and removes exactly the picked id; the reset branch is never
taken because the pool is never exhausted mid-run), one id is consumed per
shuffle, and the pool shrinks by exactly one per shuffle. -/
theorem runShuffles_fair (rs : List Nat) : ∀ pool : List Nat, pool.Nodup →
    rs.length ≤ pool.length →
    (runShuffles rs pool).1.Nodup ∧
    (∀ x ∈ (runShuffles rs pool).1, x ∈ pool) ∧
    (runShuffles rs pool).1.length = rs.length ∧
    (runShuffles rs pool).2.length = pool.length - rs.length := by
  induction rs with
  | nil =>
      intro pool _ _
      simp [runShuffles]
  | cons r rs ih =>
      intro pool hnd hle
      rw [List.length_cons] at hle
      have hpos : 0 < pool.length := Nat.lt_of_lt_of_le (Nat.succ_pos _) hle
      have hne : pool ≠ [] := List.ne_nil_of_length_pos hpos
      have hstep := selectStep_eq pool r hne
      have hsel1 : (selectStep pool r).1 = pool.getD (r % pool.length) 0 := by rw [hstep]
      have hsel2 : (selectStep pool r).2
          = pool.filter (fun id => id != pool.getD (r % pool.length) 0) := by rw [hstep]
      have hselmem : (selectStep pool r).1 ∈ pool := by
        rw [hsel1]
        exact getD_mem_of_lt (Nat.mod_lt _ hpos) 0
      have hnd' : (selectStep pool r).2.Nodup := by
        rw [hsel2]
        exact hnd.filter _
      have hsub' : ∀ x ∈ (selectStep pool r).2, x ∈ pool := by
        intro x hx
        rw [hsel2] at hx
        exact List.mem_of_mem_filter hx
      have hnotmem : (selectStep pool r).1 ∉ (selectStep pool r).2 := by
        rw [hsel1, hsel2]
        intro hmem
        have := (List.mem_filter.mp hmem).2
        simp at this
      have hlen' : (selectStep pool r).2.length = pool.length - 1 := by
        rw [hsel2, ← List.Nodup.erase_eq_filter hnd]
        apply List.length_erase_of_mem
        rw [← hsel1]
        exact hselmem
      have hle' : rs.length ≤ (selectStep pool r).2.length := by
        rw [hlen']
        omega
      obtain ⟨ihnd, ihsub, ihlen, ihpool⟩ := ih (selectStep pool r).2 hnd' hle'
      refine ⟨?_, ?_, ?_, ?_⟩
      · simp only [runShuffles]
        refine List.nodup_cons.mpr ⟨?_, ihnd⟩
        intro hmem
        exact hnotmem (ihsub _ hmem)
      · simp only [runShuffles]
        intro x hx
        rcases List.mem_cons.mp hx with rfl | hx
        · exact hselmem
        · exact hsub' _ (ihsub _ hx)
      · simp only [runShuffles, List.length_cons, ihlen]
      · simp only [runShuffles, ihpool, hlen', List.length_cons]
        omega

/-- C3: `unseenNoteIds` starts as the full set of 10 note ids and is reset
only when it has become empty; each completed shuffle selects one id from
the current pool and removes exactly that id.  Consequently, over any 10
consecutive completed shuffles — whatever the random draws — the 10 selected
ids are pairwise distinct and cover every note id (each note is seen exactly
once before any repeat), and the pool ends exhausted, so only the 11th
shuffle triggers the reset. -/
theorem unseen_note_fairness (rs : List Nat) (h : rs.length = 10) :
    (runShuffles rs noteIds).1.Nodup ∧
    (∀ x ∈ noteIds, x ∈ (runShuffles rs noteIds).1) ∧
    (runShuffles rs noteIds).1.length = 10 ∧
    (runShuffles rs noteIds).2 = [] := by
  have hlen : noteIds.length = 10 := by decide
  have hnd : noteIds.Nodup := by decide
  obtain ⟨h1, h2, h3, h4⟩ := runShuffles_fair rs noteIds hnd (by omega)
  refine ⟨h1, ?_, by omega, ?_⟩
  · intro x hx
    have hsubF : (runShuffles rs noteIds).1.toFinset ⊆ noteIds.toFinset := by
      intro y hy
      exact List.mem_toFinset.mpr (h2 y (List.mem_toFinset.mp hy))
    have hcard1 : (runShuffles rs noteIds).1.toFinset.card = 10 := by
      rw [List.toFinset_card_of_nodup h1]
      omega
    have hcard2 : noteIds.toFinset.card = 10 := by
      rw [List.toFinset_card_of_nodup hnd, hlen]
    have hFeq : (runShuffles rs noteIds).1.toFinset = noteIds.toFinset :=
      Finset.eq_of_subset_of_card_le hsubF (by omega)
    exact List.mem_toFinset.mp (hFeq ▸ List.mem_toFinset.mpr hx)
  · have : (runShuffles rs noteIds).2.length = 0 := by omega
    exact List.length_eq_zero.mp this

/-- Witness for `unseen_note_fairness` at the all-zero random stream. -/
theorem unseen_note_fairness_witness :
    (runShuffles [0, 0, 0, 0, 0, 0, 0, 0, 0, 0] noteIds).1.Nodup ∧
    (∀ x ∈ noteIds, x ∈ (runShuffles [0, 0, 0, 0, 0, 0, 0, 0, 0, 0] noteIds).1) ∧
    (runShuffles [0, 0, 0, 0, 0, 0, 0, 0, 0, 0] noteIds).1.length = 10 ∧
    (runShuffles [0, 0, 0, 0, 0, 0, 0, 0, 0, 0] noteIds).2 = [] :=
  unseen_note_fairness [0, 0, 0, 0, 0, 0, 0, 0, 0, 0] (by decide)

end ANV
